import Mathlib

/-!
Shallow embedding of the todo-mcp repository:

* `src/todo_server/todo_server.ts` — an Express + SQLite REST service over a
  single table `todos (id INTEGER PRIMARY KEY AUTOINCREMENT, task TEXT NOT NULL,
  completed BOOLEAN NOT NULL DEFAULT 0, created_at TIMESTAMP DEFAULT
  CURRENT_TIMESTAMP)`.
* `src/todo_mcp_server/index.ts` — an MCP adapter translating tool invocations
  into HTTP calls against that service.

Modelling conventions:
* The table is a `List` of rows together with the AUTOINCREMENT counter
  (`nextId`); AUTOINCREMENT starts at 1 and never reuses an id.
* Timestamps are `Nat` (the stored `created_at` strings compare
  chronologically); the database clock (`CURRENT_TIMESTAMP`) and the node
  process clock (`new Date`) are separate parameters `dbNow` / `localNow`.
* JavaScript `undefined` and JSON `null` request-body fields both bind as SQL
  NULL in the parameterised statements, so both are modelled as `Option.none`.
* `completed` is modelled as `Bool`, following the declared `Todo` type of both
  source files.
* SQLite `changes` counts the rows matched by the WHERE clause of an UPDATE or
  DELETE (for UPDATE, a matched row counts even when the new values equal the
  old ones).
-/

namespace TodoMcp

/-- A row of the `todos` table (the `Todo` type of both source files). -/
structure Todo where
  id : Nat
  task : String
  completed : Bool
  created_at : Nat
deriving DecidableEq, Repr

/-- The state owned by the store service: the `todos` table plus the
AUTOINCREMENT counter that assigns the next `id`. -/
structure Store where
  rows : List Todo
  nextId : Nat
deriving DecidableEq, Repr

/-- The state right after `CREATE TABLE IF NOT EXISTS todos ...` on a fresh
database file: no rows, first AUTOINCREMENT id is 1. -/
def Store.init : Store := ⟨[], 1⟩

/-- A POST /todos request body as the route reads it: `req.body.task`,
`req.body.completed`, and (for the spread in `createTodo`) a possible
`id` member of the raw JSON body. `none` is an absent (or null) member. -/
structure PostBody where
  task : Option String
  completed : Option Bool
  id : Option Nat
deriving DecidableEq, Repr

/-- A PUT /todos/:id request body: both members optional (absent or null
binds as SQL NULL). -/
structure PutBody where
  task : Option String
  completed : Option Bool
deriving DecidableEq, Repr

/-- `SELECT * FROM todos ORDER BY created_at DESC` (`getAllTodos`). The rows
come back sorted by `created_at`, newest first. -/
def createdDesc (a b : Todo) : Prop := b.created_at ≤ a.created_at

instance : DecidableRel createdDesc := fun a b => Nat.decLe b.created_at a.created_at

instance : IsTotal Todo createdDesc := ⟨fun a b => Nat.le_total b.created_at a.created_at⟩

instance : IsTrans Todo createdDesc := ⟨fun _ _ _ hab hbc => Nat.le_trans hbc hab⟩

def getAllTodos (s : Store) : List Todo :=
  List.insertionSort createdDesc s.rows

/-- `SELECT * FROM todos WHERE id = ?` via `db.get` (`getTodoById`):
the first matching row, if any. -/
def getTodoById (s : Store) (id : Nat) : Option Todo :=
  s.rows.find? (fun r => decide (r.id = id))

/-- `createTodo`: `INSERT INTO todos (task, completed) VALUES (?, ?)` with
params `[data.task, data.completed ?? false]`, then the synthesized return
object `{ id: result.lastID, ...data, completed: data.completed ?? false,
created_at: new Date().toISOString() }`.

The spread of `data` (the raw request body) comes after the `id` member, so a
body `id` overrides `lastID`; the `completed` and `created_at` members come
after the spread and win. A `none` task would violate the NOT NULL constraint
(`db.run` rejects), modelled as `Option.none`. -/
def createTodo (s : Store) (dbNow localNow : Nat) (data : PostBody) :
    Option (Store × Todo) :=
  match data.task with
  | none => none
  | some t =>
    let lastID := s.nextId
    some
      (⟨s.rows ++ [{ id := lastID, task := t,
                     completed := data.completed.getD false, created_at := dbNow }],
        s.nextId + 1⟩,
       { id := data.id.getD lastID, task := t,
         completed := data.completed.getD false, created_at := localNow })

/-- The row transformation of `updateTodo`:
`UPDATE todos set task = COALESCE(?, task), completed = COALESCE(?, completed)
WHERE id = ?`. -/
def updRow (id : Nat) (b : PutBody) (r : Todo) : Todo :=
  if r.id = id then
    { r with task := b.task.getD r.task, completed := b.completed.getD r.completed }
  else r

/-- `updateTodo`: runs the COALESCE update and reports `result.changes ?? 0`,
the number of rows matched by the WHERE clause. -/
def updateTodo (s : Store) (id : Nat) (b : PutBody) : Store × Nat :=
  (⟨s.rows.map (updRow id b), s.nextId⟩,
   (s.rows.filter (fun r => decide (r.id = id))).length)

/-- `deleteTodo`: `DELETE FROM todos WHERE id = ?`, reporting
`result.changes ?? 0`, the number of rows deleted. -/
def deleteTodo (s : Store) (id : Nat) : Store × Nat :=
  (⟨s.rows.filter (fun r => decide (¬ r.id = id)), s.nextId⟩,
   (s.rows.filter (fun r => decide (r.id = id))).length)

/-! ### HTTP routes

Each route is modelled as a function from the store state (plus clocks and the
request) to the new store state and an HTTP response. The response records
carry the fields the JSON bodies carry; constant human-readable `message`
and `error` texts that no row data depends on are noted in comments where
they are elided. -/

/-- Response of GET /todos: status 200 with `data` the full row list
(the 500 store-error branch is unreachable in the model). -/
structure TodosResponse where
  status : Nat
  data : List Todo
deriving DecidableEq, Repr

/-- `app.get` on /todos. -/
def getTodosRoute (s : Store) : TodosResponse :=
  ⟨200, getAllTodos s⟩

/-- Response of GET /todos/:id: 200 with the row, or 404 with only a
message (elided) and no data. -/
structure TodoResponse where
  status : Nat
  data : Option Todo
deriving DecidableEq, Repr

/-- `app.get` on /todos/:id: 200 with the row when found, else 404. -/
def getTodoRoute (s : Store) (id : Nat) : TodoResponse :=
  match getTodoById s id with
  | some row => ⟨200, some row⟩
  | none => ⟨404, none⟩

/-- Response of POST /todos: 201 with the synthesized `data` object, or 400
with only an error text (elided) and no data. -/
structure PostResponse where
  status : Nat
  data : Option Todo
deriving DecidableEq, Repr

/-- The `!req.body.task` guard of the POST route: JavaScript falsiness of the
`task` member, true for an absent member and for the empty string. -/
def postBodyTaskFalsy (b : PostBody) : Bool :=
  match b.task with
  | none => true
  | some t => t.isEmpty

/-- `app.post` on /todos: reject a falsy `task` with 400 before touching the
store, otherwise insert and answer 201 with the synthesized object. -/
def postTodosRoute (s : Store) (dbNow localNow : Nat) (body : PostBody) :
    Store × PostResponse :=
  if postBodyTaskFalsy body then (s, ⟨400, none⟩)
  else
    match createTodo s dbNow localNow body with
    | some (s2, result) => (s2, ⟨201, some result⟩)
    | none => (s, ⟨500, none⟩)

/-- Response of PUT /todos/:id: 200 with the freshly re-read row and the
`changes` count, or 404 with only a message (elided), carrying neither
`data` nor `changes` members. -/
structure PutResponse where
  status : Nat
  data : Option Todo
  changes : Option Nat
deriving DecidableEq, Repr

/-- `app.put` on /todos/:id: run `updateTodo`; `changes === 0` answers 404,
otherwise 200 with `data: await getTodoById(id)` read from the updated store
and the `changes` count. -/
def putTodoRoute (s : Store) (id : Nat) (body : PutBody) : Store × PutResponse :=
  let p := updateTodo s id body
  if p.2 = 0 then (p.1, ⟨404, none, none⟩)
  else (p.1, ⟨200, getTodoById p.1 id, some p.2⟩)

/-- Response of DELETE /todos/:id: 200 with message `deleted` and the
`changes` count, or 404 whose body holds only the not-found message. -/
structure DeleteResponse where
  status : Nat
  message : String
  changes : Option Nat
deriving DecidableEq, Repr

/-- `app.delete` on /todos/:id: run `deleteTodo`; `changes === 0` answers 404
with only a message, otherwise 200 with message `deleted` and `changes`. -/
def deleteTodoRoute (s : Store) (id : Nat) : Store × DeleteResponse :=
  let p := deleteTodo s id
  if p.2 = 0 then (p.1, ⟨404, "No to-do found with ID " ++ toString id, none⟩)
  else (p.1, ⟨200, "deleted", some p.2⟩)

/-! ### The MCP adapter (src/todo_mcp_server/index.ts)

The adapter is a stateless translation layer. The parts with logic of their
own are modelled here: the status-classification pipeline of the update and
delete tools versus the parse-only pipeline of list, get and add; the update
tool's empty-string-to-null mapping of `task`; and the list tool's result
construction. -/

/-- An HTTP response as the adapter sees it through `fetch`: status code,
status text, and the body, where `some b` is a body that parses as the
expected JSON envelope and `none` is a body that does not (non-JSON, or an
envelope without the expected members). -/
structure HttpResponse where
  status : Nat
  statusText : String
  jsonBody : Option String
deriving DecidableEq, Repr

/-- `res.ok` of the fetch API: status in the range 200 to 299. -/
def respOk (r : HttpResponse) : Bool :=
  200 ≤ r.status && r.status < 300

/-- How a tool invocation fails: a thrown `Error` carrying a message, or a
failure of `res.json()` / body-shape access. -/
inductive ToolFailure where
  | thrown (msg : String)
  | parseFailure
deriving DecidableEq, Repr

/-- The status check of the update and delete tool handlers:
`if (res.ok) return res; if (res.status >= 500) throw new Error(...)`,
with the status code and status text interpolated into the message. -/
def classifyStatus (r : HttpResponse) : Except ToolFailure HttpResponse :=
  if respOk r then .ok r
  else if 500 ≤ r.status then
    .error (.thrown ("Bad response - " ++ toString r.status ++ " - " ++ r.statusText))
  else
    .error (.thrown ("Bad request - " ++ toString r.status ++ " - " ++ r.statusText))

/-- `res.json()` (and the subsequent envelope access): succeeds exactly when
the body parses as the expected envelope. -/
def parseBody (r : HttpResponse) : Except ToolFailure String :=
  match r.jsonBody with
  | some b => .ok b
  | none => .error .parseFailure

/-- The response pipeline of the update and delete tools: classify the status
first, then parse. -/
def updateDeletePipeline (r : HttpResponse) : Except ToolFailure String :=
  (classifyStatus r).bind parseBody

/-- The response pipeline of the list, get and add tools: parse the body with
no status check at all. -/
def listGetAddPipeline (r : HttpResponse) : Except ToolFailure String :=
  parseBody r

/-- The PUT body the update tool sends:
`JSON.stringify({ task: task?.length ? task : null, completed })` — an absent
or empty-string `task` input becomes JSON null. -/
def updateToolBody (task : Option String) (completed : Option Bool) : PutBody :=
  ⟨match task with
    | some t => if t.length = 0 then none else some t
    | none => none,
   completed⟩

/-- The update tool run against the store: one PUT /todos/:id with the
reshaped body. -/
def updateTool (s : Store) (id : Nat) (task : Option String)
    (completed : Option Bool) : Store × PutResponse :=
  putTodoRoute s id (updateToolBody task completed)

/-- A `resource_link` content item as the list tool emits it (the constant
`mimeType` and `annotations` members are the same on every item and are
elided). -/
structure ResourceLink where
  uri : String
  name : String
  description : String
deriving DecidableEq, Repr

/-- Lower-case hexadecimal digit, for JSON control-character escapes. -/
def hexDigit (n : Nat) : Char :=
  if n < 10 then Char.ofNat (48 + n) else Char.ofNat (87 + n)

/-- One character of ECMAScript `JSON.stringify` string quoting. -/
def jsonEscapeChar (c : Char) : String :=
  if c.toNat = 34 then String.singleton (Char.ofNat 92) ++ String.singleton (Char.ofNat 34)
  else if c.toNat = 92 then String.singleton (Char.ofNat 92) ++ String.singleton (Char.ofNat 92)
  else if c.toNat = 8 then String.singleton (Char.ofNat 92) ++ "b"
  else if c.toNat = 9 then String.singleton (Char.ofNat 92) ++ "t"
  else if c.toNat = 10 then String.singleton (Char.ofNat 92) ++ "n"
  else if c.toNat = 12 then String.singleton (Char.ofNat 92) ++ "f"
  else if c.toNat = 13 then String.singleton (Char.ofNat 92) ++ "r"
  else if c.toNat < 32 then
    String.singleton (Char.ofNat 92) ++ "u00" ++
      String.singleton (hexDigit (c.toNat / 16)) ++ String.singleton (hexDigit (c.toNat % 16))
  else String.singleton c

/-- `JSON.stringify` applied to a string: the text wrapped in double quotes
with the JSON escapes applied. The result always differs from its input — it
gains the surrounding quotes. -/
def jsonStringifyString (s : String) : String :=
  String.singleton (Char.ofNat 34) ++ String.join (s.data.map jsonEscapeChar) ++
    String.singleton (Char.ofNat 34)

/-- The list tool handler: fetch GET /todos, emit the text
`Found <n> items`, then one `resource_link` per returned row with uri
`todo://item/<id>`, name `String(item.id)` and description
`JSON.stringify(item.task)`. -/
def listTool (s : Store) : String × List ResourceLink :=
  let data := getAllTodos s
  ("Found " ++ toString data.length ++ " items",
   data.map (fun item =>
     ⟨"todo://item/" ++ toString item.id, toString item.id,
      jsonStringifyString item.task⟩))

/-! ### Helper lemmas -/

/-- `List.find?` commutes with a map that does not disturb the predicate. -/
theorem find?_map_comm {α : Type} (f : α → α) (p : α → Bool)
    (hf : ∀ x, p (f x) = p x) : ∀ l : List α, (l.map f).find? p = (l.find? p).map f
  | [] => rfl
  | a :: t => by
    by_cases h : p a = true
    · have hfa : p (f a) = true := by rw [hf]; exact h
      simp [List.find?_cons_of_pos _ h, List.find?_cons_of_pos _ hfa]
    · have hfa : ¬ p (f a) = true := by rw [hf]; exact h
      simp [List.find?_cons_of_neg _ h, List.find?_cons_of_neg _ hfa,
        find?_map_comm f p hf t]

/-- The COALESCE update never touches the `id` column. -/
theorem updRow_id (id : Nat) (b : PutBody) (r : Todo) : (updRow id b r).id = r.id := by
  unfold updRow; split <;> rfl

/-- Reading a row back after `updateTodo` yields the COALESCE-updated row. -/
theorem getTodoById_updateTodo (s : Store) (id : Nat) (b : PutBody) (r : Todo)
    (h : getTodoById s id = some r) :
    getTodoById (updateTodo s id b).1 id =
      some { r with task := b.task.getD r.task,
                    completed := b.completed.getD r.completed } := by
  have hid : r.id = id := by
    have hp := List.find?_some h
    simpa using hp
  have hcomm : ∀ x : Todo,
      (decide ((updRow id b x).id = id)) = decide (x.id = id) := by
    intro x; rw [updRow_id]
  show ((s.rows.map (updRow id b)).find? fun r => decide (r.id = id)) = _
  rw [find?_map_comm (updRow id b) _ hcomm s.rows]
  unfold getTodoById at h
  rw [h]
  simp [updRow, hid]

/-- The store returned by the PUT route is the COALESCE-updated one in both
branches of the changes test. -/
theorem putTodoRoute_fst (s : Store) (id : Nat) (b : PutBody) :
    (putTodoRoute s id b).1 = (updateTodo s id b).1 := by
  unfold putTodoRoute
  dsimp only
  split <;> rfl

/-! ### Claims -/

/-- C1: for every existing task id, a PUT /todos/:id whose body omits a field
leaves the corresponding column unchanged — only `completed` supplied leaves
`task` at its prior value, and only `task` supplied leaves `completed` at its
prior value (null-coalescing partial update). -/
theorem put_omitted_fields_unchanged (s : Store) (id : Nat) (r : Todo)
    (h : getTodoById s id = some r) :
    (∀ b : PutBody, b.task = none →
      ∃ row, getTodoById (putTodoRoute s id b).1 id = some row ∧
        row.task = r.task ∧ row.completed = b.completed.getD r.completed) ∧
    (∀ b : PutBody, b.completed = none →
      ∃ row, getTodoById (putTodoRoute s id b).1 id = some row ∧
        row.completed = r.completed ∧ row.task = b.task.getD r.task) := by
  constructor
  · intro b hb
    refine ⟨{ r with
              task := b.task.getD r.task
              completed := b.completed.getD r.completed }, ?_, ?_, ?_⟩
    · rw [putTodoRoute_fst]
      exact getTodoById_updateTodo s id b r h
    · simp [hb]
    · rfl
  · intro b hb
    refine ⟨{ r with
              task := b.task.getD r.task
              completed := b.completed.getD r.completed }, ?_, ?_, ?_⟩
    · rw [putTodoRoute_fst]
      exact getTodoById_updateTodo s id b r h
    · simp [hb]
    · rfl

theorem put_omitted_fields_unchanged_witness :
    (getTodoById ⟨[⟨1, "a", false, 5⟩], 2⟩ 1 = some ⟨1, "a", false, 5⟩) ∧
    (∃ row, getTodoById (putTodoRoute ⟨[⟨1, "a", false, 5⟩], 2⟩ 1 ⟨none, some true⟩).1 1
        = some row ∧ row.task = "a" ∧ row.completed = true) ∧
    (∃ row, getTodoById (putTodoRoute ⟨[⟨1, "a", false, 5⟩], 2⟩ 1 ⟨some "b", none⟩).1 1
        = some row ∧ row.completed = false ∧ row.task = "b") := by
  have h := put_omitted_fields_unchanged ⟨[⟨1, "a", false, 5⟩], 2⟩ 1 ⟨1, "a", false, 5⟩
    (by decide)
  exact ⟨by decide, by simpa using h.1 ⟨none, some true⟩ rfl,
    by simpa using h.2 ⟨some "b", none⟩ rfl⟩

/-- C5: an update tool invocation whose `task` input is the empty string acts
as if `task` were absent: the PUT body maps the empty string to null, so the
stored task text is unchanged while a supplied `completed` value is applied. -/
theorem update_tool_empty_task_no_change (s : Store) (id : Nat) (c : Option Bool)
    (r : Todo) (h : getTodoById s id = some r) :
    updateTool s id (some "") c = updateTool s id none c ∧
    ∃ row, getTodoById (updateTool s id (some "") c).1 id = some row ∧
      row.task = r.task ∧ row.completed = c.getD r.completed := by
  refine ⟨rfl, { r with completed := c.getD r.completed }, ?_, rfl, rfl⟩
  show getTodoById (putTodoRoute s id ⟨none, c⟩).1 id = _
  rw [putTodoRoute_fst]
  exact getTodoById_updateTodo s id ⟨none, c⟩ r h

theorem update_tool_empty_task_no_change_witness :
    (getTodoById ⟨[⟨1, "a", false, 5⟩], 2⟩ 1 = some ⟨1, "a", false, 5⟩) ∧
    updateTool ⟨[⟨1, "a", false, 5⟩], 2⟩ 1 (some "") (some true)
      = updateTool ⟨[⟨1, "a", false, 5⟩], 2⟩ 1 none (some true) ∧
    (∃ row, getTodoById (updateTool ⟨[⟨1, "a", false, 5⟩], 2⟩ 1 (some "") (some true)).1 1
        = some row ∧ row.task = "a" ∧ row.completed = true) := by
  have h := update_tool_empty_task_no_change ⟨[⟨1, "a", false, 5⟩], 2⟩ 1 (some true)
    ⟨1, "a", false, 5⟩ (by decide)
  exact ⟨by decide, h.1, by simpa using h.2⟩

/-- C6: a POST /todos whose body has an empty or absent `task` member is
answered with status 400, and the store gains no row. -/
theorem post_empty_task_rejected (s : Store) (dbNow localNow : Nat) (body : PostBody)
    (h : body.task = none ∨ body.task = some "") :
    postTodosRoute s dbNow localNow body = (s, ⟨400, none⟩) := by
  have hf : postBodyTaskFalsy body = true := by
    rcases h with h | h
    · simp [postBodyTaskFalsy, h]
    · unfold postBodyTaskFalsy
      rw [h]
      decide
  simp [postTodosRoute, hf]

theorem post_empty_task_rejected_witness :
    ((⟨some "", none, none⟩ : PostBody).task = none ∨
      (⟨some "", none, none⟩ : PostBody).task = some "") ∧
    postTodosRoute Store.init 10 20 ⟨some "", none, none⟩ = (Store.init, ⟨400, none⟩) :=
  ⟨Or.inr rfl, post_empty_task_rejected Store.init 10 20 ⟨some "", none, none⟩ (Or.inr rfl)⟩

/-- A PUT on an id matching no row answers 404 and returns the store
unchanged: the COALESCE update touches no row. -/
theorem putTodoRoute_no_match (s : Store) (id : Nat) (b : PutBody)
    (h : ∀ r ∈ s.rows, r.id ≠ id) :
    putTodoRoute s id b = (s, ⟨404, none, none⟩) := by
  have hfilter : s.rows.filter (fun r => decide (r.id = id)) = [] := by
    apply List.filter_eq_nil_iff.mpr
    intro r hr
    simp [h r hr]
  have hmap : s.rows.map (updRow id b) = s.rows := by
    have h2 : ∀ r ∈ s.rows, updRow id b r = r := fun r hr => by
      simp [updRow, h r hr]
    calc s.rows.map (updRow id b) = s.rows.map (fun r => r) := List.map_congr_left h2
    _ = s.rows := List.map_id' s.rows
  unfold putTodoRoute updateTodo
  dsimp only
  rw [hfilter, hmap]
  simp

/-- A DELETE on an id matching no row answers 404 and returns the store
unchanged: the filter keeps every row. -/
theorem deleteTodoRoute_no_match (s : Store) (id : Nat)
    (h : ∀ r ∈ s.rows, r.id ≠ id) :
    deleteTodoRoute s id = (s, ⟨404, "No to-do found with ID " ++ toString id, none⟩) := by
  have hfilter : s.rows.filter (fun r => decide (r.id = id)) = [] := by
    apply List.filter_eq_nil_iff.mpr
    intro r hr
    simp [h r hr]
  have hkeep : s.rows.filter (fun r => decide (¬ r.id = id)) = s.rows := by
    apply List.filter_eq_self.mpr
    intro r hr
    simp [h r hr]
  unfold deleteTodoRoute deleteTodo
  dsimp only
  rw [hfilter, hkeep]
  simp

/-- C3: PUT and DELETE on an id with no matching row both answer 404 and
return the store unchanged (the COALESCE update matches no row and the
delete filters out nothing). -/
theorem nonexistent_id_put_delete_404 (s : Store) (id : Nat) (b : PutBody)
    (h : ∀ r ∈ s.rows, r.id ≠ id) :
    putTodoRoute s id b = (s, ⟨404, none, none⟩) ∧
    deleteTodoRoute s id = (s, ⟨404, "No to-do found with ID " ++ toString id, none⟩) :=
  ⟨putTodoRoute_no_match s id b h, deleteTodoRoute_no_match s id h⟩

theorem nonexistent_id_put_delete_404_witness :
    (∀ r ∈ (⟨[⟨1, "a", false, 5⟩], 2⟩ : Store).rows, r.id ≠ 7) ∧
    putTodoRoute ⟨[⟨1, "a", false, 5⟩], 2⟩ 7 ⟨some "b", some true⟩
      = (⟨[⟨1, "a", false, 5⟩], 2⟩, ⟨404, none, none⟩) ∧
    deleteTodoRoute ⟨[⟨1, "a", false, 5⟩], 2⟩ 7
      = (⟨[⟨1, "a", false, 5⟩], 2⟩, ⟨404, "No to-do found with ID " ++ toString 7, none⟩) := by
  have h := nonexistent_id_put_delete_404 ⟨[⟨1, "a", false, 5⟩], 2⟩ 7 ⟨some "b", some true⟩
    (by decide)
  exact ⟨by decide, h.1, h.2⟩

/-- Looking up the freshly inserted id finds the appended row, provided no
earlier row carries that id. -/
theorem find?_id_append_last : ∀ (l : List Todo) (x : Todo) (n : Nat),
    x.id = n → (∀ a ∈ l, a.id ≠ n) →
    (l ++ [x]).find? (fun r => decide (r.id = n)) = some x
  | [], x, n, hx, _ => by
    rw [List.nil_append,
      @List.find?_cons_of_pos Todo (fun r => decide (r.id = n)) x [] (by simp [hx])]
  | a :: t, x, n, hx, h => by
    have ha : a.id ≠ n := h a (List.mem_cons_self a t)
    rw [List.cons_append,
      @List.find?_cons_of_neg Todo (fun r => decide (r.id = n)) a (t ++ [x]) (by simp [ha])]
    exact find?_id_append_last t x n hx (fun b hb => h b (List.mem_cons_of_mem a hb))

/-- A POST whose body carries a non-empty task inserts one row at the next
AUTOINCREMENT id with the database clock, and answers 201 with the
synthesized object: its id is the body id when one is present (the body is
spread over the id member), else the inserted id; its created_at is the
local clock, not the stored one. -/
theorem postTodosRoute_eq (s : Store) (dbNow localNow : Nat) (body : PostBody)
    (t : String) (ht : body.task = some t) (hne : t ≠ "") :
    postTodosRoute s dbNow localNow body =
      (⟨s.rows ++ [⟨s.nextId, t, body.completed.getD false, dbNow⟩], s.nextId + 1⟩,
       ⟨201, some ⟨body.id.getD s.nextId, t, body.completed.getD false, localNow⟩⟩) := by
  have hfalsy : postBodyTaskFalsy body = false := by
    unfold postBodyTaskFalsy
    rw [ht]
    show t.isEmpty = false
    rw [← Bool.not_eq_true, String.isEmpty_iff]
    exact hne
  unfold postTodosRoute createTodo
  rw [hfalsy, ht]
  simp

/-- C2: adding a task with non-empty text T and then getting the id the add
returned yields a row whose task is T and whose completed is false
(the insert stores completed as the default false, and the AUTOINCREMENT
invariant makes the returned id find the new row). -/
theorem add_then_get_roundtrip (s : Store) (dbNow localNow : Nat) (T : String)
    (hT : T ≠ "") (hwf : ∀ r ∈ s.rows, r.id < s.nextId) :
    (postTodosRoute s dbNow localNow ⟨some T, none, none⟩).2.status = 201 ∧
    ∃ d, (postTodosRoute s dbNow localNow ⟨some T, none, none⟩).2.data = some d ∧
      ∃ row,
        (getTodoRoute (postTodosRoute s dbNow localNow ⟨some T, none, none⟩).1 d.id).status
          = 200 ∧
        (getTodoRoute (postTodosRoute s dbNow localNow ⟨some T, none, none⟩).1 d.id).data
          = some row ∧
        row.task = T ∧ row.completed = false := by
  have hroute := postTodosRoute_eq s dbNow localNow ⟨some T, none, none⟩ T rfl hT
  have hfind : getTodoById
      (⟨s.rows ++ [⟨s.nextId, T, false, dbNow⟩], s.nextId + 1⟩ : Store) s.nextId
      = some ⟨s.nextId, T, false, dbNow⟩ := by
    unfold getTodoById
    exact find?_id_append_last s.rows _ s.nextId rfl
      (fun a ha => Nat.ne_of_lt (hwf a ha))
  have hget : getTodoRoute
      (⟨s.rows ++ [⟨s.nextId, T, false, dbNow⟩], s.nextId + 1⟩ : Store) s.nextId
      = ⟨200, some ⟨s.nextId, T, false, dbNow⟩⟩ := by
    unfold getTodoRoute
    rw [hfind]
  rw [hroute]
  refine ⟨rfl, ⟨s.nextId, T, false, localNow⟩, rfl,
    ⟨s.nextId, T, false, dbNow⟩, ?_, ?_, rfl, rfl⟩
  · show (getTodoRoute
      (⟨s.rows ++ [⟨s.nextId, T, false, dbNow⟩], s.nextId + 1⟩ : Store) s.nextId).status = 200
    rw [hget]
  · show (getTodoRoute
      (⟨s.rows ++ [⟨s.nextId, T, false, dbNow⟩], s.nextId + 1⟩ : Store) s.nextId).data
      = some ⟨s.nextId, T, false, dbNow⟩
    rw [hget]

theorem add_then_get_roundtrip_witness :
    ("buy milk" ≠ "") ∧ (∀ r ∈ Store.init.rows, r.id < Store.init.nextId) ∧
    ((postTodosRoute Store.init 10 20 ⟨some "buy milk", none, none⟩).2.status = 201 ∧
      ∃ d, (postTodosRoute Store.init 10 20 ⟨some "buy milk", none, none⟩).2.data = some d ∧
        ∃ row,
          (getTodoRoute (postTodosRoute Store.init 10 20
            ⟨some "buy milk", none, none⟩).1 d.id).status = 200 ∧
          (getTodoRoute (postTodosRoute Store.init 10 20
            ⟨some "buy milk", none, none⟩).1 d.id).data = some row ∧
          row.task = "buy milk" ∧ row.completed = false) :=
  ⟨by decide, by decide,
    add_then_get_roundtrip Store.init 10 20 "buy milk" (by decide) (by decide)⟩

/-- With no duplicate ids, the rows matching an existing id are exactly the
one row carrying it. -/
theorem filter_eq_singleton_of_nodup : ∀ (l : List Todo) (n : Nat),
    (l.map Todo.id).Nodup → ∀ r ∈ l, r.id = n →
    l.filter (fun x => decide (x.id = n)) = [r]
  | [], _, _, r, hr, _ => absurd hr (List.not_mem_nil r)
  | a :: t, n, hnd, r, hr, hid => by
    rw [List.map_cons, List.nodup_cons] at hnd
    rcases List.mem_cons.mp hr with rfl | hrt
    · have ht : t.filter (fun x => decide (x.id = n)) = [] := by
        apply List.filter_eq_nil_iff.mpr
        intro x hx
        have hne : x.id ≠ n := by
          intro he
          apply hnd.1
          rw [hid, ← he]
          exact List.mem_map_of_mem Todo.id hx
        simp [hne]
      simp [List.filter_cons, hid, ht]
    · have haid : a.id ≠ n := by
        intro he
        apply hnd.1
        rw [he, ← hid]
        exact List.mem_map_of_mem Todo.id hrt
      simp [List.filter_cons, haid,
        filter_eq_singleton_of_nodup t n hnd.2 r hrt hid]

/-- The store returned by the DELETE route is the filtered one in both
branches of the changes test. -/
theorem deleteTodoRoute_fst (s : Store) (id : Nat) :
    (deleteTodoRoute s id).1 = (deleteTodo s id).1 := by
  unfold deleteTodoRoute
  dsimp only
  split <;> rfl

/-- Deleting an existing id on a duplicate-free store removes exactly that
row and answers 200 with changes 1. -/
theorem deleteTodoRoute_found (s : Store) (id : Nat) (r : Todo)
    (hnd : (s.rows.map Todo.id).Nodup) (hr : r ∈ s.rows) (hid : r.id = id) :
    deleteTodoRoute s id =
      (⟨s.rows.filter (fun x => decide (¬ x.id = id)), s.nextId⟩,
       ⟨200, "deleted", some 1⟩) := by
  have hflt := filter_eq_singleton_of_nodup s.rows id hnd r hr hid
  unfold deleteTodoRoute deleteTodo
  dsimp only
  rw [hflt]
  simp

/-- C7 as stated is false: the second DELETE answers 404, but its response
body carries no changes member at all (only the not-found message), so it
does not carry changes equal to 0. Concrete input: a store holding the one
row with id 1, deleted twice. -/
theorem delete_twice_changes_cex :
    ¬ ((deleteTodoRoute (deleteTodoRoute ⟨[⟨1, "a", false, 5⟩], 2⟩ 1).1 1).2.status = 404 ∧
       (deleteTodoRoute (deleteTodoRoute ⟨[⟨1, "a", false, 5⟩], 2⟩ 1).1 1).2.changes
         = some 0) := by
  decide

/-- C7 amended: deleting an existing id twice succeeds the first time with
status 200 and changes 1 in the response, and fails the second time with
status 404; the second response carries no changes member (the underlying
deleteTodo reports changes 0, which is what routes the request to the 404
branch). -/
theorem delete_twice_amended (s : Store) (id : Nat) (r : Todo)
    (hnd : (s.rows.map Todo.id).Nodup) (hr : r ∈ s.rows) (hid : r.id = id) :
    (deleteTodoRoute s id).2 = ⟨200, "deleted", some 1⟩ ∧
    (deleteTodo s id).2 = 1 ∧
    (deleteTodo (deleteTodoRoute s id).1 id).2 = 0 ∧
    (deleteTodoRoute (deleteTodoRoute s id).1 id).2
      = ⟨404, "No to-do found with ID " ++ toString id, none⟩ := by
  have hfound := deleteTodoRoute_found s id r hnd hr hid
  have hflt := filter_eq_singleton_of_nodup s.rows id hnd r hr hid
  have hno : ∀ x ∈ (deleteTodoRoute s id).1.rows, x.id ≠ id := by
    rw [hfound]
    intro x hx
    exact of_decide_eq_true (List.mem_filter.mp hx).2
  refine ⟨by rw [hfound], ?_, ?_, ?_⟩
  · show (s.rows.filter (fun x => decide (x.id = id))).length = 1
    rw [hflt]
    rfl
  · show ((deleteTodoRoute s id).1.rows.filter (fun x => decide (x.id = id))).length = 0
    have hempty : (deleteTodoRoute s id).1.rows.filter (fun x => decide (x.id = id)) = [] :=
      List.filter_eq_nil_iff.mpr (fun x hx => by simp [hno x hx])
    rw [hempty]
    rfl
  · rw [deleteTodoRoute_no_match _ id hno]

theorem delete_twice_amended_witness :
    ((((⟨[⟨1, "a", false, 5⟩], 2⟩ : Store).rows.map Todo.id).Nodup) ∧
      (⟨1, "a", false, 5⟩ : Todo) ∈ (⟨[⟨1, "a", false, 5⟩], 2⟩ : Store).rows ∧
      (⟨1, "a", false, 5⟩ : Todo).id = 1) ∧
    (deleteTodoRoute ⟨[⟨1, "a", false, 5⟩], 2⟩ 1).2 = ⟨200, "deleted", some 1⟩ ∧
    (deleteTodo ⟨[⟨1, "a", false, 5⟩], 2⟩ 1).2 = 1 ∧
    (deleteTodo (deleteTodoRoute ⟨[⟨1, "a", false, 5⟩], 2⟩ 1).1 1).2 = 0 ∧
    (deleteTodoRoute (deleteTodoRoute ⟨[⟨1, "a", false, 5⟩], 2⟩ 1).1 1).2
      = ⟨404, "No to-do found with ID " ++ toString 1, none⟩ :=
  ⟨⟨by decide, by decide, by decide⟩,
    delete_twice_amended ⟨[⟨1, "a", false, 5⟩], 2⟩ 1 ⟨1, "a", false, 5⟩
      (by decide) (by decide) (by decide)⟩

/-- C9: the 201 body of POST /todos is synthesized from the request, not read
back from the store. Generally, the response id is the body id when the raw
body carries one (the body is spread over the id member after it), else the
inserted id, and the response created_at is the local clock while the stored
row carries the database clock. Concretely, a body carrying id 42 on an empty
store yields a 201 object with id 42 while the inserted row has id 1 and the
database timestamp, so a subsequent GET of the response id returns 404 and
the 201 data equals no row the store returns. -/
theorem post_response_synthesized :
    (∀ (s : Store) (dbNow localNow : Nat) (body : PostBody) (t : String),
      body.task = some t → t ≠ "" →
      ∃ d, (postTodosRoute s dbNow localNow body).2.status = 201 ∧
        (postTodosRoute s dbNow localNow body).2.data = some d ∧
        d.id = body.id.getD s.nextId ∧ d.created_at = localNow ∧ d.task = t ∧
        ∃ row, (postTodosRoute s dbNow localNow body).1.rows = s.rows ++ [row] ∧
          row.id = s.nextId ∧ row.created_at = dbNow) ∧
    ((postTodosRoute Store.init 10 20 ⟨some "x", none, some 42⟩).2.status = 201 ∧
      ((postTodosRoute Store.init 10 20 ⟨some "x", none, some 42⟩).2.data.map Todo.id
        = some 42) ∧
      ((postTodosRoute Store.init 10 20 ⟨some "x", none, some 42⟩).1.rows.map Todo.id
        = [1]) ∧
      ((postTodosRoute Store.init 10 20 ⟨some "x", none, some 42⟩).2.data.map
          Todo.created_at = some 20) ∧
      ((postTodosRoute Store.init 10 20 ⟨some "x", none, some 42⟩).1.rows.map
          Todo.created_at = [10]) ∧
      getTodoRoute (postTodosRoute Store.init 10 20 ⟨some "x", none, some 42⟩).1 42
        = ⟨404, none⟩ ∧
      ∀ row ∈ (postTodosRoute Store.init 10 20 ⟨some "x", none, some 42⟩).1.rows,
        (postTodosRoute Store.init 10 20 ⟨some "x", none, some 42⟩).2.data ≠ some row) := by
  constructor
  · intro s dbNow localNow body t ht hne
    rw [postTodosRoute_eq s dbNow localNow body t ht hne]
    exact ⟨⟨body.id.getD s.nextId, t, body.completed.getD false, localNow⟩,
      rfl, rfl, rfl, rfl, rfl,
      ⟨s.nextId, t, body.completed.getD false, dbNow⟩, rfl, rfl, rfl⟩
  · refine ⟨by decide, by decide, by decide, by decide, by decide, by decide, ?_⟩
    decide

theorem post_response_synthesized_witness :
    ((⟨some "milk", none, some 9⟩ : PostBody).task = some "milk" ∧ "milk" ≠ "") ∧
    (∃ d, (postTodosRoute Store.init 3 4 ⟨some "milk", none, some 9⟩).2.status = 201 ∧
      (postTodosRoute Store.init 3 4 ⟨some "milk", none, some 9⟩).2.data = some d ∧
      d.id = (⟨some "milk", none, some 9⟩ : PostBody).id.getD Store.init.nextId ∧
      d.created_at = 4 ∧ d.task = "milk" ∧
      ∃ row, (postTodosRoute Store.init 3 4 ⟨some "milk", none, some 9⟩).1.rows
          = Store.init.rows ++ [row] ∧
        row.id = Store.init.nextId ∧ row.created_at = 3) :=
  ⟨⟨rfl, by decide⟩,
    post_response_synthesized.1 Store.init 3 4 ⟨some "milk", none, some 9⟩ "milk"
      rfl (by decide)⟩

/-- C4: on the update and delete paths every non-2xx response becomes a
thrown failure whose message embeds the status code and status text —
prefixed Bad response when the status is at least 500, Bad request when it
is in 400 to 499 — while the list, get and add paths run no status check
before parsing, so they can only succeed or fail as a parse failure, never
as a classified thrown failure; a body that does not parse surfaces as a
parse failure there. -/
theorem adapter_status_classification :
    (∀ r : HttpResponse, respOk r = false →
      (500 ≤ r.status →
        updateDeletePipeline r = .error (.thrown
          ("Bad response - " ++ toString r.status ++ " - " ++ r.statusText))) ∧
      (400 ≤ r.status → r.status ≤ 499 →
        updateDeletePipeline r = .error (.thrown
          ("Bad request - " ++ toString r.status ++ " - " ++ r.statusText)))) ∧
    (∀ r : HttpResponse, ∀ m, listGetAddPipeline r ≠ .error (.thrown m)) ∧
    (∀ r : HttpResponse, r.jsonBody = none →
      listGetAddPipeline r = .error .parseFailure) := by
  refine ⟨fun r hok => ⟨fun h5 => ?_, fun h4 h4b => ?_⟩, fun r m => ?_, fun r hb => ?_⟩
  · unfold updateDeletePipeline classifyStatus
    rw [hok]
    simp [h5]
    rfl
  · have hn5 : ¬ 500 ≤ r.status := by omega
    unfold updateDeletePipeline classifyStatus
    rw [hok]
    simp [hn5]
    rfl
  · unfold listGetAddPipeline parseBody
    cases hb : r.jsonBody <;> simp [hb]
  · unfold listGetAddPipeline parseBody
    rw [hb]

theorem adapter_status_classification_witness :
    (respOk ⟨503, "Service Unavailable", none⟩ = false ∧ 500 ≤ 503) ∧
    updateDeletePipeline ⟨503, "Service Unavailable", none⟩
      = .error (.thrown ("Bad response - " ++ toString 503 ++ " - " ++ "Service Unavailable")) ∧
    (respOk ⟨404, "Not Found", some "body"⟩ = false ∧ 400 ≤ 404 ∧ 404 ≤ 499) ∧
    updateDeletePipeline ⟨404, "Not Found", some "body"⟩
      = .error (.thrown ("Bad request - " ++ toString 404 ++ " - " ++ "Not Found")) ∧
    listGetAddPipeline ⟨404, "Not Found", none⟩ = .error .parseFailure :=
  ⟨⟨by decide, by decide⟩,
    (adapter_status_classification.1 ⟨503, "Service Unavailable", none⟩ (by decide)).1
      (by decide),
    ⟨by decide, by decide, by decide⟩,
    (adapter_status_classification.1 ⟨404, "Not Found", some "body"⟩ (by decide)).2
      (by decide) (by decide),
    adapter_status_classification.2.2 ⟨404, "Not Found", none⟩ rfl⟩

/-- C8 as stated is false: the list tool builds each link description with
JSON.stringify applied to the task text, which wraps it in double quotes, so
the description is not the task text. Concrete input: a store holding one
row whose task is the one-character text a — no row task equals the emitted
description. -/
theorem list_description_not_task_cex :
    ¬ (∀ l ∈ (listTool ⟨[⟨1, "a", false, 5⟩], 2⟩).2,
        ∃ r ∈ (⟨[⟨1, "a", false, 5⟩], 2⟩ : Store).rows, l.description = r.task) := by
  decide

/-- C8 amended: for every store the list tool returns the summary counting
the tasks and exactly one link-reference per task with uri todo://item/
followed by the id, name the id rendered as text, and description the
JSON-string encoding of the task text (the task text wrapped in quotes with
JSON escapes); against the empty store it returns the summary naming zero
items and no link-references. -/
theorem list_tool_summary_links (s : Store) :
    (listTool s).1 = "Found " ++ toString s.rows.length ++ " items" ∧
    (listTool s).2.length = s.rows.length ∧
    (∀ l ∈ (listTool s).2, ∃ r ∈ s.rows,
      l.uri = "todo://item/" ++ toString r.id ∧ l.name = toString r.id ∧
      l.description = jsonStringifyString r.task) ∧
    ((listTool Store.init).1 = "Found 0 items" ∧ (listTool Store.init).2 = []) := by
  have hlen : (getAllTodos s).length = s.rows.length :=
    (List.perm_insertionSort createdDesc s.rows).length_eq
  refine ⟨?_, ?_, ?_, by decide, by decide⟩
  · show "Found " ++ toString (getAllTodos s).length ++ " items" = _
    rw [hlen]
  · show ((getAllTodos s).map _).length = s.rows.length
    rw [List.length_map]
    exact hlen
  · intro l hl
    rcases List.mem_map.mp hl with ⟨r, hr, hlr⟩
    have hrs : r ∈ s.rows := (List.perm_insertionSort createdDesc s.rows).mem_iff.mp hr
    exact ⟨r, hrs, by rw [← hlr], by rw [← hlr], by rw [← hlr]⟩

theorem list_tool_summary_links_witness :
    ((⟨"todo://item/" ++ toString 1, toString 1, jsonStringifyString "a"⟩ : ResourceLink)
      ∈ (listTool ⟨[⟨1, "a", false, 5⟩], 2⟩).2) ∧
    ∃ r ∈ (⟨[⟨1, "a", false, 5⟩], 2⟩ : Store).rows,
      (⟨"todo://item/" ++ toString 1, toString 1, jsonStringifyString "a"⟩ : ResourceLink).uri
        = "todo://item/" ++ toString r.id ∧
      (⟨"todo://item/" ++ toString 1, toString 1, jsonStringifyString "a"⟩ : ResourceLink).name
        = toString r.id ∧
      (⟨"todo://item/" ++ toString 1, toString 1, jsonStringifyString "a"⟩ : ResourceLink).description
        = jsonStringifyString r.task :=
  ⟨by decide,
    (list_tool_summary_links ⟨[⟨1, "a", false, 5⟩], 2⟩).2.2.1 _ (by decide)⟩

/-- C10: GET /todos answers 200 with the rows of the store ordered by
created_at descending, newest first — the returned list is a permutation of
the stored rows sorted by descending creation time — and the list tool emits
its links in that same order. -/
theorem get_all_sorted_desc (s : Store) :
    (getTodosRoute s).status = 200 ∧
    (getTodosRoute s).data = getAllTodos s ∧
    List.Sorted createdDesc (getAllTodos s) ∧
    (getAllTodos s).Perm s.rows ∧
    (listTool s).2.map ResourceLink.name = (getAllTodos s).map (fun r => toString r.id) := by
  refine ⟨rfl, rfl, List.sorted_insertionSort createdDesc s.rows,
    List.perm_insertionSort createdDesc s.rows, ?_⟩
  unfold listTool
  dsimp only
  rw [List.map_map]
  rfl

end TodoMcp
